import Mathlib

/-!
Verification of the MediCare AI-service prediction core
(`backend/ai-service/app/core/ml_models.py` and
`backend/ai-service/app/api/v1/api.py`).

The Python code is shallowly embedded: feature dictionaries become
association lists over `String`, Python numbers become `ℚ` (with `ℝ` for
the logistic squashing, which uses `exp`), exceptions become explicit
outcome types, and the `ModelManager`'s mutable dictionaries become an
explicit state record threaded through its operations.
-/

namespace MediCare

/-! ## Association lists (Python `dict`) -/

/-- Dictionary read, mirroring Python `d[k]` / `d.get(k)`. -/
def lookupA {α : Type} : List (String × α) → String → Option α
  | [], _ => Option.none
  | (k, v) :: t, key => if k = key then some v else lookupA t key

/-- Dictionary write, mirroring Python `d[k] = v` (replace or append). -/
def setA {α : Type} : List (String × α) → String → α → List (String × α)
  | [], key, v => [(key, v)]
  | (k, w) :: t, key, v => if k = key then (key, v) :: t else (k, w) :: setA t key v

/-! ## Feature values (`predict_proba_single` input dictionaries)

A Python value stored in a feature record.  `isNumeric` mirrors
`isinstance(v, (int, float))`; note that Python `bool` is a subclass of
`int`, so booleans pass this check, with `True == 1` and `False == 0`. -/

inductive Value where
  | int (n : ℤ)
  | float (q : ℚ)
  | bool (b : Bool)
  | str (s : String)
  | none
deriving DecidableEq

def Value.isNumeric : Value → Bool
  | .int _ => true
  | .float _ => true
  | .bool _ => true
  | _ => false

def Value.toNum : Value → ℚ
  | .int n => (n : ℚ)
  | .float q => q
  | .bool b => if b then 1 else 0
  | _ => 0

/-! ## PatientRiskScorer (`ml_models.py` lines 108-149)

A DataFrame row is modelled as an association list of numeric fields;
`rowGet` mirrors `row.get(field, 0)` (missing fields default to 0). -/

abbrev Row := List (String × ℚ)

def rowGet (row : Row) (k : String) : ℚ := (lookupA row k).getD 0

/-- `min(1.0, (row.get("age", 0) / 100.0) + (row.get("cholesterol", 0) / 500.0))` -/
def calculate_cardiovascular_risk (row : Row) : ℚ :=
  min 1 (rowGet row "age" / 100 + rowGet row "cholesterol" / 500)

/-- `min(1.0, row.get("glucose_level", 0) / 300.0)` -/
def calculate_diabetes_risk (row : Row) : ℚ :=
  min 1 (rowGet row "glucose_level" / 300)

/-- `min(1.0, row.get("previous_admissions", 0) / 8.0)` -/
def calculate_readmission_risk (row : Row) : ℚ :=
  min 1 (rowGet row "previous_admissions" / 8)

/-- `(cv + di + rd) / 3.0`, row-wise. -/
def calculate_composite_risk (row : Row) : ℚ :=
  (calculate_cardiovascular_risk row + calculate_diabetes_risk row +
    calculate_readmission_risk row) / 3

/-- Loop body of `categorize_risk_levels`. -/
def categorizeScore (s : ℚ) : String :=
  if s ≥ 0.85 then "CRITICAL"
  else if s ≥ 0.7 then "HIGH"
  else if s ≥ 0.4 then "MEDIUM"
  else "LOW"

/-- `categorize_risk_levels(scores)` maps the loop body over the scores. -/
def categorize_risk_levels (scores : List ℚ) : List String :=
  scores.map categorizeScore

/-! ## No-show dispatch thresholds

`api.py` lines 198-199 (single-record path) and `ml_models.py` lines
100-105 (`NoShowPredictor.predict_batch`). -/

/-- `int(prob >= 0.5)` -/
def noShowLabel (p : ℚ) : ℤ := if p ≥ 0.5 then 1 else 0

/-- `"HIGH" if prob >= 0.7 else ("MEDIUM" if prob >= 0.4 else "LOW")` -/
def noShowRisk (p : ℚ) : String :=
  if p ≥ 0.7 then "HIGH" else if p ≥ 0.4 then "MEDIUM" else "LOW"

/-- The dictionary built by `NoShowPredictor.predict_batch`, as a function of
the probabilities returned by `predict_proba`. -/
structure BatchResult where
  predictions : List ℤ
  probabilities : List ℚ
  risk_levels : List String
  explanations : List (Option String)

def predict_batch (probs : List ℚ) : BatchResult where
  predictions := probs.map fun p => if p ≥ 0.5 then (1 : ℤ) else 0
  probabilities := probs
  risk_levels := probs.map fun p => if p ≥ 0.7 then "HIGH" else if p ≥ 0.4 then "MEDIUM" else "LOW"
  explanations := probs.map fun _ => Option.none

/-! ## NoShowPredictor heuristic probabilities (`ml_models.py` lines 64-94) -/

/-- `1 / (1 + np.exp(-(s - 0.5)))` -/
noncomputable def logistic (s : ℝ) : ℝ := 1 / (1 + Real.exp (-(s - 0.5)))

/-- `[v for v in x.values() if isinstance(v, (int, float))]` -/
def numericValues (x : List (String × Value)) : List Value :=
  (x.map Prod.snd).filter Value.isNumeric

/-- `NoShowPredictor.predict_proba_single`: default 0.1 when the record has
no numeric values; otherwise the logistic squashing of their mean. -/
noncomputable def predict_proba_single (x : List (String × Value)) : ℝ :=
  let vals := numericValues x
  if vals.isEmpty then 0.1
  else logistic ((((vals.map Value.toNum).sum / (vals.length : ℚ) : ℚ) : ℝ))

/-- Heuristic batch path of `predict_proba`: per-row mean of the numeric
columns (0 when there are none), then the logistic squashing. -/
def rowMean (r : List ℚ) : ℚ := if r.isEmpty then 0 else r.sum / r.length

noncomputable def heuristicProb (r : List ℚ) : ℝ := logistic ((rowMean r : ℚ) : ℝ)

noncomputable def predict_proba_heuristic (rows : List (List ℚ)) : List ℝ :=
  rows.map heuristicProb

/-! ## Endpoint error mapping (`api.py` lines 192-210, 245-257, 302-333)

Each endpoint wraps its prediction computation in
`except (ValueError, TypeError)` → HTTP 400 `"Invalid input"` and
`except Exception` → HTTP 500 `"Prediction failed"`. -/

inductive PyExc where
  | valueError (msg : String)
  | typeError (msg : String)
  | other (msg : String)
deriving DecidableEq

inductive ApiOutcome (α : Type) where
  | ok (value : α)
  | httpError (status : ℕ) (detail : String)
deriving DecidableEq

/-- `predict_no_show` exception-to-response mapping (`api.py` 192-210). -/
def predict_no_show_dispatch {α : Type} (result : Except PyExc α) : ApiOutcome α :=
  match result with
  | .ok v => .ok v
  | .error (.valueError _) => .httpError 400 "Invalid input"
  | .error (.typeError _) => .httpError 400 "Invalid input"
  | .error (.other _) => .httpError 500 "Prediction failed"

/-- `predict_risk` exception-to-response mapping (`api.py` 245-257). -/
def predict_risk_dispatch {α : Type} (result : Except PyExc α) : ApiOutcome α :=
  match result with
  | .ok v => .ok v
  | .error (.valueError _) => .httpError 400 "Invalid input"
  | .error (.typeError _) => .httpError 400 "Invalid input"
  | .error (.other _) => .httpError 500 "Prediction failed"

/-- `predict_batch` endpoint exception-to-response mapping (`api.py` 302-333). -/
def predict_batch_dispatch {α : Type} (result : Except PyExc α) : ApiOutcome α :=
  match result with
  | .ok v => .ok v
  | .error (.valueError _) => .httpError 400 "Invalid input"
  | .error (.typeError _) => .httpError 400 "Invalid input"
  | .error (.other _) => .httpError 500 "Prediction failed"

/-! ## ModelManager (`ml_models.py` lines 152-253)

The manager's two mutable dictionaries (`self.models` and
`self.model_metadata`) become an explicit state record.  A model instance
is reduced to its `is_trained` flag (the only attribute the health check
and the metadata invariant depend on); metadata entries are reduced to
their key sets. -/

structure ModelInst where
  is_trained : Bool
deriving DecidableEq

structure MMState where
  models : List (String × ModelInst)
  metadata : List (String × List String)

/-- `required = ["no_show_predictor", "risk_scorer"]` in `health_check`. -/
def requiredModels : List String := ["no_show_predictor", "risk_scorer"]

/-- `ModelManager.health_check` (`ml_models.py` 183-196): false as soon as a
required model is absent or `getattr(m, "is_trained", False)` is false. -/
def health_check (models : List (String × ModelInst)) : Bool :=
  requiredModels.all fun name =>
    match lookupA models name with
    | Option.none => false
    | some m => m.is_trained

/-- `self.model_metadata.setdefault(name, {})[key] = ...` -/
def metaSetdefaultAdd (md : List (String × List String)) (name key : String) :
    List (String × List String) :=
  setA md name (((lookupA md name).getD []) ++ [key])

/-- `ModelManager.save_model` (`ml_models.py` 246-253): `joblib.dump` may
fail (`dumpOk = false`), in which case the failure is logged and the
`saved_at` metadata stamp is never written. -/
def save_model (name : String) (dumpOk : Bool) (s : MMState) : MMState :=
  if dumpOk then { s with metadata := metaSetdefaultAdd s.metadata name "saved_at" } else s

/-- `ModelManager.get_model` (`ml_models.py` 209-213): raises `KeyError`
(here `Option.none`, with the state unchanged) for an absent name,
otherwise stamps `last_used` and returns the instance. -/
def get_model (name : String) (s : MMState) : MMState × Option ModelInst :=
  match lookupA s.models name with
  | Option.none => (s, Option.none)
  | some m => ({ s with metadata := metaSetdefaultAdd s.metadata name "last_used" }, some m)

/-- Environment for one name during `ModelManager.initialize`: the disk load
either returns an object, or fails/misses with the baseline training then
either succeeding or raising. -/
inductive InitOutcome where
  | fromDisk (m : ModelInst)
  | baselineOk
  | baselineFail
deriving DecidableEq

/-- Fresh instances installed by `initialize` lines 166-167:
`NoShowPredictor()` starts untrained, `PatientRiskScorer()` starts
trained. -/
def freshInstance (name : String) : ModelInst :=
  if name = "risk_scorer" then ⟨true⟩ else ⟨false⟩

/-- One iteration of the `initialize` loop (`ml_models.py` 170-181) for
`name`.  A successful disk load installs the loaded object and assigns the
disk metadata entry; a successful baseline training installs a freshly
trained instance and assigns the baseline metadata entry (the interim
`saved_at` stamp written by `save_model` is overwritten by the dict
assignment on line 179); a baseline-training failure is logged and leaves
both dictionaries untouched. -/
def initOne (env : String → InitOutcome) (name : String) (s : MMState) : MMState :=
  match env name with
  | .fromDisk m =>
      { models := setA s.models name m
        metadata := setA s.metadata name ["loaded_from", "load_time"] }
  | .baselineOk =>
      { models := setA s.models name ⟨true⟩
        metadata := setA s.metadata name ["loaded_from", "load_time"] }
  | .baselineFail => s

/-- `ModelManager.initialize` (`ml_models.py` 161-181): install the two
fresh instances, then run the load-or-train loop over both names. -/
def instantiated (s : MMState) : MMState :=
  ⟨setA (setA s.models "no_show_predictor" (freshInstance "no_show_predictor"))
      "risk_scorer" (freshInstance "risk_scorer"),
    s.metadata⟩

def initModels (env : String → InitOutcome) (s : MMState) : MMState :=
  initOne env "risk_scorer" (initOne env "no_show_predictor" (instantiated s))

/-- `ModelManager.cleanup` (`ml_models.py` 201-207): save every held model;
per-model dump failures are logged and skipped. -/
def cleanup (dumpOk : String → Bool) (s : MMState) : MMState :=
  s.models.foldl (fun st p => save_model p.1 (dumpOk p.1) st) s

/-- A registry operation, with the nondeterministic parts of the
environment (disk contents, training and dump success) made explicit. -/
inductive Op where
  | init (env : String → InitOutcome)
  | getModel (name : String)
  | saveModel (name : String) (dumpOk : Bool)
  | cleanup (dumpOk : String → Bool)

def step (s : MMState) : Op → MMState
  | .init env => initModels env s
  | .getModel name => (get_model name s).1
  | .saveModel name ok => save_model name ok s
  | .cleanup ok => cleanup ok s

/-- Run a sequence of registry operations from the freshly constructed
manager (both dictionaries empty, `ml_models.py` 155-157). -/
def run (ops : List Op) : MMState := ops.foldl step ⟨[], []⟩

/-- The spec's data-model invariant: every model name present in the
registry's mapping has a metadata entry. -/
def metadataCovers (s : MMState) : Prop :=
  ∀ name, (lookupA s.models name).isSome = true → (lookupA s.metadata name).isSome = true

/-- An `initialize` whose baseline training never fails (for either
required name); other operations are unconstrained. -/
def opGood : Op → Prop
  | .init env => env "no_show_predictor" ≠ InitOutcome.baselineFail ∧
      env "risk_scorer" ≠ InitOutcome.baselineFail
  | _ => True

/-- Environment where disk load misses and baseline training raises for the
no-show model but succeeds for the risk scorer. -/
def failEnv : String → InitOutcome :=
  fun name => if name = "no_show_predictor" then InitOutcome.baselineFail else InitOutcome.baselineOk

/-! ## Helper lemmas -/

theorem lookupA_mem {α : Type} :
    ∀ (l : List (String × α)) (k : String) (v : α), lookupA l k = some v → (k, v) ∈ l
  | [], _, _, h => by simp [lookupA] at h
  | (a, b) :: t, k, v, h => by
      by_cases hak : a = k
      · subst hak
        rw [lookupA, if_pos rfl] at h
        cases h
        exact List.mem_cons_self _ _
      · rw [lookupA, if_neg hak] at h
        exact List.mem_cons_of_mem _ (lookupA_mem t k v h)

theorem rowGet_nonneg (row : Row) (h : ∀ p ∈ row, 0 ≤ p.2) (k : String) :
    0 ≤ rowGet row k := by
  unfold rowGet
  cases hl : lookupA row k with
  | none => simp
  | some v => simpa using h (k, v) (lookupA_mem row k v hl)

/-- C1 (counterexample): on the row `{"age": -200}` the cardiovascular
sub-score is `min(1, -2) = -2` (the clamp is one-sided), so the composite
risk score is `-2/3`, outside `[0, 1]`.  The claim as stated — the score
lies in `[0, 1]` for arbitrary numeric values "including negative values"
— is therefore false. -/
theorem composite_risk_escapes_unit_interval_on_negative_input :
    ¬ (0 ≤ calculate_composite_risk [("age", (-200 : ℚ))] ∧
        calculate_composite_risk [("age", (-200 : ℚ))] ≤ 1) := by
  have hval : calculate_composite_risk [("age", (-200 : ℚ))] = -2 / 3 := by
    unfold calculate_composite_risk calculate_cardiovascular_risk calculate_diabetes_risk
      calculate_readmission_risk rowGet
    simp [lookupA]
    norm_num [min_def]
  rw [hval]
  norm_num

/-- C1 (amended): the sub-scores are clamped only from above, so the
composite score is at most 1 unconditionally, and lies in `[0, 1]`
whenever every field value in the row is non-negative (missing fields
still default to 0). -/
theorem composite_risk_unit_interval_of_nonneg (row : Row)
    (h : ∀ p ∈ row, 0 ≤ p.2) :
    0 ≤ calculate_composite_risk row ∧ calculate_composite_risk row ≤ 1 := by
  have ha := rowGet_nonneg row h "age"
  have hc := rowGet_nonneg row h "cholesterol"
  have hg := rowGet_nonneg row h "glucose_level"
  have hp := rowGet_nonneg row h "previous_admissions"
  have cv_le : calculate_cardiovascular_risk row ≤ 1 := min_le_left _ _
  have di_le : calculate_diabetes_risk row ≤ 1 := min_le_left _ _
  have rd_le : calculate_readmission_risk row ≤ 1 := min_le_left _ _
  have cv_n : 0 ≤ calculate_cardiovascular_risk row :=
    le_min (by norm_num)
      (add_nonneg (div_nonneg ha (by norm_num)) (div_nonneg hc (by norm_num)))
  have di_n : 0 ≤ calculate_diabetes_risk row :=
    le_min (by norm_num) (div_nonneg hg (by norm_num))
  have rd_n : 0 ≤ calculate_readmission_risk row :=
    le_min (by norm_num) (div_nonneg hp (by norm_num))
  unfold calculate_composite_risk
  constructor
  · exact div_nonneg (by linarith) (by norm_num)
  · rw [div_le_one (by norm_num)]
    linarith

/-- Witness for C1 (amended) at the row `{"age": 50, "cholesterol": 200}`. -/
theorem composite_risk_unit_interval_of_nonneg_witness :
    (∀ p ∈ ([("age", (50 : ℚ)), ("cholesterol", (200 : ℚ))] : Row), 0 ≤ p.2) ∧
    (0 ≤ calculate_composite_risk [("age", (50 : ℚ)), ("cholesterol", (200 : ℚ))] ∧
      calculate_composite_risk [("age", (50 : ℚ)), ("cholesterol", (200 : ℚ))] ≤ 1) :=
  ⟨by norm_num [List.forall_mem_cons],
    composite_risk_unit_interval_of_nonneg _ (by norm_num [List.forall_mem_cons])⟩

/-- C4: the three sub-scores are exactly `min(1, age/100 + cholesterol/500)`,
`min(1, glucose_level/300)` and `min(1, previous_admissions/8)`, a field
absent from the row reads as 0, and the composite score is the unweighted
mean of the three sub-scores. -/
theorem risk_subscore_formulas (row : Row) :
    calculate_cardiovascular_risk row =
        min 1 (rowGet row "age" / 100 + rowGet row "cholesterol" / 500) ∧
    calculate_diabetes_risk row = min 1 (rowGet row "glucose_level" / 300) ∧
    calculate_readmission_risk row = min 1 (rowGet row "previous_admissions" / 8) ∧
    calculate_composite_risk row =
      (calculate_cardiovascular_risk row + calculate_diabetes_risk row +
        calculate_readmission_risk row) / 3 ∧
    (∀ k, lookupA row k = Option.none → rowGet row k = 0) :=
  ⟨rfl, rfl, rfl, rfl, fun _ hk => by simp [rowGet, hk]⟩

/-- Witness for C4 at a row without an `"age"` field. -/
theorem risk_subscore_formulas_witness :
    lookupA ([("cholesterol", (200 : ℚ))] : Row) "age" = Option.none ∧
    rowGet ([("cholesterol", (200 : ℚ))] : Row) "age" = 0 :=
  ⟨rfl, (risk_subscore_formulas [("cholesterol", 200)]).2.2.2.2 "age" rfl⟩

/-- C3: on the no-show path (single-record dispatch and
`NoShowPredictor.predict_batch`) the label is 1 iff `p ≥ 0.5`, the bucket
is HIGH iff `p ≥ 0.7`, MEDIUM iff `0.4 ≤ p < 0.7`, LOW iff `p < 0.4`; the
boundaries are inclusive above (0.7 ↦ HIGH, 0.4 ↦ MEDIUM, 0.39999 ↦ LOW)
and CRITICAL is never produced. -/
theorem no_show_label_and_risk_thresholds (p : ℚ) :
    (noShowLabel p = 1 ↔ 0.5 ≤ p) ∧
    (noShowRisk p = "HIGH" ↔ 0.7 ≤ p) ∧
    (noShowRisk p = "MEDIUM" ↔ 0.4 ≤ p ∧ p < 0.7) ∧
    (noShowRisk p = "LOW" ↔ p < 0.4) ∧
    noShowRisk p ≠ "CRITICAL" ∧
    (predict_batch [p]).predictions = [noShowLabel p] ∧
    (predict_batch [p]).risk_levels = [noShowRisk p] ∧
    noShowRisk 0.7 = "HIGH" ∧ noShowRisk 0.4 = "MEDIUM" ∧ noShowRisk 0.39999 = "LOW" := by
  refine ⟨?_, ?_, ?_, ?_, ?_, rfl, rfl, ?_, ?_, ?_⟩
  · unfold noShowLabel
    split_ifs with h
    · exact iff_of_true rfl h
    · exact iff_of_false (by decide) h
  · unfold noShowRisk
    split_ifs with h7 h4
    · exact iff_of_true rfl h7
    · exact iff_of_false (by decide) h7
    · exact iff_of_false (by decide) h7
  · unfold noShowRisk
    split_ifs with h7 h4
    · exact iff_of_false (by decide) fun hc => not_lt.mpr h7 hc.2
    · exact iff_of_true rfl ⟨h4, not_le.mp h7⟩
    · exact iff_of_false (by decide) fun hc => h4 hc.1
  · unfold noShowRisk
    split_ifs with h7 h4
    · exact iff_of_false (by decide) (not_lt.mpr (le_trans (by norm_num) h7))
    · exact iff_of_false (by decide) (not_lt.mpr h4)
    · exact iff_of_true rfl (not_le.mp h4)
  · unfold noShowRisk
    split_ifs <;> decide
  · unfold noShowRisk
    norm_num
  · unfold noShowRisk
    norm_num
  · unfold noShowRisk
    norm_num

/-- C5: `categorize_risk_levels` maps each score to exactly one of four
buckets — CRITICAL iff `s ≥ 0.85`, HIGH iff `0.7 ≤ s < 0.85`, MEDIUM iff
`0.4 ≤ s < 0.7`, LOW iff `s < 0.4` — while the no-show dispatch bucket
function never produces CRITICAL. -/
theorem categorize_risk_levels_buckets (s : ℚ) :
    (categorizeScore s = "CRITICAL" ↔ 0.85 ≤ s) ∧
    (categorizeScore s = "HIGH" ↔ 0.7 ≤ s ∧ s < 0.85) ∧
    (categorizeScore s = "MEDIUM" ↔ 0.4 ≤ s ∧ s < 0.7) ∧
    (categorizeScore s = "LOW" ↔ s < 0.4) ∧
    categorize_risk_levels [s] = [categorizeScore s] ∧
    noShowRisk s ≠ "CRITICAL" := by
  refine ⟨?_, ?_, ?_, ?_, rfl, ?_⟩
  · unfold categorizeScore
    split_ifs with h85 h7 h4
    · exact iff_of_true rfl h85
    · exact iff_of_false (by decide) h85
    · exact iff_of_false (by decide) h85
    · exact iff_of_false (by decide) h85
  · unfold categorizeScore
    split_ifs with h85 h7 h4
    · exact iff_of_false (by decide) fun hc => not_lt.mpr h85 hc.2
    · exact iff_of_true rfl ⟨h7, not_le.mp h85⟩
    · exact iff_of_false (by decide) fun hc => h7 hc.1
    · exact iff_of_false (by decide) fun hc => h7 hc.1
  · unfold categorizeScore
    split_ifs with h85 h7 h4
    · exact iff_of_false (by decide) fun hc => not_lt.mpr (le_trans (by norm_num) h85) hc.2
    · exact iff_of_false (by decide) fun hc => not_lt.mpr h7 hc.2
    · exact iff_of_true rfl ⟨h4, not_le.mp h7⟩
    · exact iff_of_false (by decide) fun hc => h4 hc.1
  · unfold categorizeScore
    split_ifs with h85 h7 h4
    · exact iff_of_false (by decide) (not_lt.mpr (le_trans (by norm_num) h85))
    · exact iff_of_false (by decide) (not_lt.mpr (le_trans (by norm_num) h7))
    · exact iff_of_false (by decide) (not_lt.mpr h4)
    · exact iff_of_true rfl (not_le.mp h4)
  · unfold noShowRisk
    split_ifs <;> decide

/-- C2: on all three prediction endpoints, a `ValueError` or `TypeError`
raised by the prediction computation yields status 400 with exactly
"Invalid input", any other exception yields status 500 with exactly
"Prediction failed"; the client-visible message is a fixed constant,
independent of the raised exception's own message text. -/
theorem prediction_exception_mapping {α : Type} (msg : String) :
    predict_no_show_dispatch (α := α) (Except.error (PyExc.valueError msg)) =
      ApiOutcome.httpError 400 "Invalid input" ∧
    predict_no_show_dispatch (α := α) (Except.error (PyExc.typeError msg)) =
      ApiOutcome.httpError 400 "Invalid input" ∧
    predict_no_show_dispatch (α := α) (Except.error (PyExc.other msg)) =
      ApiOutcome.httpError 500 "Prediction failed" ∧
    predict_risk_dispatch (α := α) (Except.error (PyExc.valueError msg)) =
      ApiOutcome.httpError 400 "Invalid input" ∧
    predict_risk_dispatch (α := α) (Except.error (PyExc.typeError msg)) =
      ApiOutcome.httpError 400 "Invalid input" ∧
    predict_risk_dispatch (α := α) (Except.error (PyExc.other msg)) =
      ApiOutcome.httpError 500 "Prediction failed" ∧
    predict_batch_dispatch (α := α) (Except.error (PyExc.valueError msg)) =
      ApiOutcome.httpError 400 "Invalid input" ∧
    predict_batch_dispatch (α := α) (Except.error (PyExc.typeError msg)) =
      ApiOutcome.httpError 400 "Invalid input" ∧
    predict_batch_dispatch (α := α) (Except.error (PyExc.other msg)) =
      ApiOutcome.httpError 500 "Prediction failed" :=
  ⟨rfl, rfl, rfl, rfl, rfl, rfl, rfl, rfl, rfl⟩

/-- C6: `predict_proba_single` returns the fixed default 0.1 exactly when
the record holds no numeric values, and otherwise the logistic squashing
of the mean of the numeric values. -/
theorem predict_proba_single_default_and_mean (x : List (String × Value)) :
    (numericValues x = [] → predict_proba_single x = 0.1) ∧
    (numericValues x ≠ [] →
      predict_proba_single x =
        logistic ((((numericValues x).map Value.toNum).sum /
          ((numericValues x).length : ℚ) : ℚ) : ℝ)) := by
  constructor
  · intro h
    unfold predict_proba_single
    simp [h]
  · intro h
    unfold predict_proba_single
    simp [h]

/-- Witness for C6: a record with only a string value yields 0.1; a record
with one integer value yields the logistic of its mean. -/
theorem predict_proba_single_default_and_mean_witness :
    predict_proba_single [("day_of_week", Value.str "Mon")] = 0.1 ∧
    predict_proba_single [("patient_age", Value.int 54)] =
      logistic ((((numericValues [("patient_age", Value.int 54)]).map Value.toNum).sum /
        ((numericValues [("patient_age", Value.int 54)]).length : ℚ) : ℚ) : ℝ) :=
  ⟨(predict_proba_single_default_and_mean _).1 rfl,
    (predict_proba_single_default_and_mean _).2 (by decide)⟩

/-- C7: on the heuristic (untrained) path, the no-show probability is
monotonically non-decreasing in the row's numeric-field mean. -/
theorem heuristic_prob_monotone_in_mean (r1 r2 : List ℚ) (h : rowMean r1 ≤ rowMean r2) :
    heuristicProb r1 ≤ heuristicProb r2 ∧
    predict_proba_heuristic [r1, r2] = [heuristicProb r1, heuristicProb r2] := by
  refine ⟨?_, rfl⟩
  unfold heuristicProb logistic
  have hm : ((rowMean r1 : ℚ) : ℝ) ≤ ((rowMean r2 : ℚ) : ℝ) := by exact_mod_cast h
  have he : Real.exp (-(((rowMean r2 : ℚ) : ℝ) - 0.5)) ≤
      Real.exp (-(((rowMean r1 : ℚ) : ℝ) - 0.5)) :=
    Real.exp_le_exp.mpr (by linarith)
  exact one_div_le_one_div_of_le (by positivity) (by linarith)

/-- Witness for C7 at the one-column rows `[0]` and `[1]`. -/
theorem heuristic_prob_monotone_in_mean_witness :
    rowMean [(0 : ℚ)] ≤ rowMean [(1 : ℚ)] ∧
    heuristicProb [(0 : ℚ)] ≤ heuristicProb [(1 : ℚ)] :=
  ⟨by simp [rowMean],
    (heuristic_prob_monotone_in_mean _ _ (by simp [rowMean])).1⟩

/-- C10: booleans pass the `isinstance(v, (int, float))` check (Python
`bool` is a subclass of `int`), counting `True` as 1 and `False` as 0, so
an all-boolean record does not get the 0.1 default: an all-`False` record
yields `logistic 0 = 1 / (1 + e^0.5) ≈ 0.3775 ≠ 0.1`. -/
theorem bool_features_are_numeric :
    Value.isNumeric (Value.bool true) = true ∧
    Value.isNumeric (Value.bool false) = true ∧
    Value.toNum (Value.bool true) = 1 ∧
    Value.toNum (Value.bool false) = 0 ∧
    predict_proba_single [("is_weekend", Value.bool false)] = logistic 0 ∧
    predict_proba_single [("is_weekend", Value.bool false)] ≠ 0.1 := by
  have hval : predict_proba_single [("is_weekend", Value.bool false)] = logistic 0 := by
    unfold predict_proba_single
    norm_num [numericValues, Value.isNumeric, Value.toNum]
  have hlog : logistic 0 = 1 / (1 + Real.exp 0.5) := by
    unfold logistic
    norm_num
  have h9 : Real.exp 0.5 < 9 := by
    have h1 : Real.exp 0.5 ≤ Real.exp 1 := Real.exp_le_exp.mpr (by norm_num)
    linarith [Real.exp_one_lt_d9]
  have hgt : (0.1 : ℝ) < logistic 0 := by
    rw [hlog]
    have hpos : (0 : ℝ) < 1 + Real.exp 0.5 := by positivity
    have h2 := one_div_lt_one_div_of_lt hpos (by linarith : 1 + Real.exp 0.5 < 10)
    calc (0.1 : ℝ) = 1 / 10 := by norm_num
    _ < 1 / (1 + Real.exp 0.5) := h2
  refine ⟨rfl, rfl, rfl, rfl, hval, ?_⟩
  rw [hval]
  exact ne_of_gt hgt

/-- C8: `ModelManager.health_check` reports healthy iff each of the two
required names resolves to a present instance whose trained flag is true;
any absent or untrained required model makes it unhealthy, regardless of
the other model's state. -/
theorem health_check_iff_present_and_trained (models : List (String × ModelInst)) :
    health_check models = true ↔
      ((∃ m, lookupA models "no_show_predictor" = some m ∧ m.is_trained = true) ∧
        (∃ m, lookupA models "risk_scorer" = some m ∧ m.is_trained = true)) := by
  unfold health_check requiredModels
  cases h1 : lookupA models "no_show_predictor" <;>
    cases h2 : lookupA models "risk_scorer" <;>
      simp [h1, h2]

/-! ## Registry metadata invariant (C9) -/

theorem lookupA_setA {α : Type} (l : List (String × α)) (k : String) (v : α) (k' : String) :
    lookupA (setA l k v) k' = if k' = k then some v else lookupA l k' := by
  induction l with
  | nil =>
      by_cases h : k' = k
      · subst h
        simp [setA, lookupA]
      · have h2 : ¬ (k = k') := fun hh => h hh.symm
        simp [setA, lookupA, h, h2]
  | cons hd t ih =>
      obtain ⟨a, b⟩ := hd
      by_cases hak : a = k <;> by_cases hk' : k' = a
      · simp [setA, lookupA, hak, hk']
      · have h1 : ¬ (k = k') := fun hh => hk' (hh.symm.trans hak.symm)
        have h2 : ¬ (k' = k) := fun hh => hk' (hh.trans hak.symm)
        simp [setA, lookupA, hak, h1, h2]
      · have h3 : ¬ (k' = k) := fun hh => hak (hk'.symm.trans hh)
        simp [setA, lookupA, hak, hk', h3]
      · have h4 : ¬ (a = k') := fun hh => hk' hh.symm
        simp [setA, lookupA, hak, h4, ih]

theorem isSome_lookupA_setA {α : Type} (l : List (String × α)) (k : String) (v : α)
    (k' : String) (h : (lookupA l k').isSome = true) :
    (lookupA (setA l k v) k').isSome = true := by
  rw [lookupA_setA]
  split_ifs with hk
  · rfl
  · exact h

theorem metadataCovers_metaAdd (s : MMState) (name key : String)
    (h : metadataCovers s) :
    metadataCovers { s with metadata := metaSetdefaultAdd s.metadata name key } := by
  intro n hn
  exact isSome_lookupA_setA _ _ _ _ (h n hn)

theorem save_model_covers (name : String) (ok : Bool) (s : MMState)
    (h : metadataCovers s) : metadataCovers (save_model name ok s) := by
  unfold save_model
  split_ifs
  · exact metadataCovers_metaAdd s name "saved_at" h
  · exact h

theorem get_model_covers (name : String) (s : MMState)
    (h : metadataCovers s) : metadataCovers (get_model name s).1 := by
  cases hm : lookupA s.models name with
  | none => simpa [get_model, hm] using h
  | some m =>
      have h2 := metadataCovers_metaAdd s name "last_used" h
      simpa [get_model, hm] using h2

theorem foldl_save_covers (ok : String → Bool) (l : List (String × ModelInst)) (s : MMState)
    (h : metadataCovers s) :
    metadataCovers (l.foldl (fun st p => save_model p.1 (ok p.1) st) s) := by
  induction l generalizing s with
  | nil => exact h
  | cons hd t ih => exact ih _ (save_model_covers hd.1 (ok hd.1) s h)

theorem cleanup_covers (ok : String → Bool) (s : MMState) (h : metadataCovers s) :
    metadataCovers (cleanup ok s) :=
  foldl_save_covers ok s.models s h

theorem initOne_good (env : String → InitOutcome) (name : String) (s : MMState)
    (h : env name ≠ InitOutcome.baselineFail) :
    ∃ m : ModelInst, initOne env name s =
      ⟨setA s.models name m, setA s.metadata name ["loaded_from", "load_time"]⟩ := by
  cases he : env name with
  | fromDisk m => exact ⟨m, by simp [initOne, he]⟩
  | baselineOk => exact ⟨⟨true⟩, by simp [initOne, he]⟩
  | baselineFail => exact absurd he h

theorem initModels_covers (env : String → InitOutcome) (s : MMState)
    (h : metadataCovers s)
    (h1 : env "no_show_predictor" ≠ InitOutcome.baselineFail)
    (h2 : env "risk_scorer" ≠ InitOutcome.baselineFail) :
    metadataCovers (initModels env s) := by
  obtain ⟨m1, e1⟩ := initOne_good env "no_show_predictor" (instantiated s) h1
  obtain ⟨m2, e2⟩ :=
    initOne_good env "risk_scorer" (initOne env "no_show_predictor" (instantiated s)) h2
  unfold initModels
  rw [e2, e1]
  dsimp only [instantiated]
  intro n hn
  by_cases hrs : n = "risk_scorer"
  · rw [lookupA_setA, if_pos hrs]
    rfl
  · by_cases hns : n = "no_show_predictor"
    · rw [lookupA_setA, if_neg hrs, lookupA_setA, if_pos hns]
      rfl
    · rw [lookupA_setA, if_neg hrs, lookupA_setA, if_neg hns]
      rw [lookupA_setA, if_neg hrs, lookupA_setA, if_neg hns, lookupA_setA, if_neg hrs,
        lookupA_setA, if_neg hns] at hn
      exact h n hn

theorem step_covers (s : MMState) (op : Op) (h : metadataCovers s) (hg : opGood op) :
    metadataCovers (step s op) := by
  cases op with
  | init env => exact initModels_covers env s h hg.1 hg.2
  | getModel name => exact get_model_covers name s h
  | saveModel name ok => exact save_model_covers name ok s h
  | cleanup ok => exact cleanup_covers ok s h

/-- C9 (counterexample): starting from a fresh manager, run `initialize` in
an environment where the no-show model's disk load misses and its baseline
training raises.  The instance installed on line 166 stays in
`self.models`, but no metadata entry is ever written for it (the
`except` on lines 180-181 only logs), so the claimed invariant — which the
claim asserts "in particular" on exactly this path — is false. -/
theorem metadata_entry_missing_after_failed_baseline :
    ¬ metadataCovers (run [Op.init failEnv]) := by
  intro h
  have h2 := h "no_show_predictor" rfl
  exact absurd h2 (by decide)

/-- C9 (amended): after any sequence of registry operations in which every
`initialize` runs in an environment whose baseline training does not fail
(for either required name), every model name present in the registry's
mapping has a metadata entry.  When a name's disk load misses and its
baseline training also fails, that name remains in the mapping with no
metadata entry until a later successful `get_model` or `save_model`
touches it. -/
theorem metadata_covers_after_good_ops (ops : List Op) (h : ∀ op ∈ ops, opGood op) :
    metadataCovers (run ops) := by
  have base : metadataCovers ⟨[], []⟩ := by
    intro n hn
    simp [lookupA] at hn
  suffices H : ∀ (l : List Op) (s : MMState), metadataCovers s →
      (∀ op ∈ l, opGood op) → metadataCovers (l.foldl step s) by
    exact H ops ⟨[], []⟩ base h
  intro l
  induction l with
  | nil => exact fun s hs _ => hs
  | cons op t ih =>
      intro s hs hl
      exact ih _ (step_covers s op hs (hl op (List.mem_cons_self op t)))
        fun o ho => hl o (List.mem_cons_of_mem op ho)

/-- Witness for C9 (amended): a healthy initialize followed by a retrieval
and a cleanup. -/
theorem metadata_covers_after_good_ops_witness :
    metadataCovers (run [Op.init (fun _ => InitOutcome.baselineOk),
      Op.getModel "no_show_predictor", Op.cleanup (fun _ => true)]) := by
  apply metadata_covers_after_good_ops
  intro op hop
  rcases List.mem_cons.mp hop with rfl | hop2
  · exact ⟨fun hh => InitOutcome.noConfusion hh, fun hh => InitOutcome.noConfusion hh⟩
  rcases List.mem_cons.mp hop2 with rfl | hop3
  · trivial
  rcases List.mem_cons.mp hop3 with rfl | hop4
  · trivial
  · exact absurd hop4 (List.not_mem_nil op)

end MediCare
